import Mathlib

/-!
Shallow embedding of the `typesafe-env` library core (`src/index.ts`):
the single-schema validator `createEnv`, the split validator
`createSplitEnv`, the client/server guard, the client-side key filter,
the strictness adapter, and the default error formatting.

Modelling conventions:
* A JS environment mapping (`Record<string, unknown>`) is an association
  list `List (String × Value)` in property-insertion order.
* The zod schema engine is embedded just deeply enough for the claims:
  an object schema is a shape (list of key / field-schema pairs) plus an
  unknown-keys mode; any other schema is an opaque parse function.
  `safeParse` of an object schema collects one issue per failing field
  (in shape order) and, in strict mode, a single root-path
  "Unrecognized key(s)" issue listing the undeclared input keys,
  mirroring zod v3.
* The runtime execution-context probe `isClientSide()` (presence of a
  browser `window` global) and the ambient default source
  `getDefaultEnvSource()` are host inputs; they are threaded as explicit
  parameters `isClient : Bool` and `ambientEnv : EnvMap`.
* `Object.freeze` and strict-mode property assignment are modelled by a
  `frozen` flag on results and the `setField` operation, which faults on
  a frozen result and updates an unfrozen one.
* Raised JS errors become the `Except` error channel: the guard's
  security error, the default `Invalid environment variables` error, and
  whatever a custom `onError` handler raises.
-/

/-- A JS runtime value as it appears in an environment mapping or as a
field-level parse output. -/
inductive Value where
  | vStr : String → Value
  | vNum : Int → Value
  | vBool : Bool → Value
  | vUndef : Value
deriving DecidableEq, Repr

/-- A JS environment mapping `Record<string, unknown>`, as an association
list in property order. -/
abbrev EnvMap := List (String × Value)

/-- One zod issue: a field path and a human-readable message. -/
structure ZodIssue where
  path : List String
  message : String
deriving DecidableEq, Repr

/-- The embedded parse result of a schema: a record (object schema
output) or a single value (output of a non-object schema). -/
inductive ParsedValue where
  | record : List (String × Value) → ParsedValue
  | scalar : Value → ParsedValue
deriving DecidableEq, Repr

/-- One field of a zod object shape: parsing takes the looked-up input
value (`none` when the key is absent, i.e. `undefined`) and returns the
parsed value or an issue message. -/
structure FieldSchema where
  parse : Option Value → Except String Value

/-- An embedded zod schema: `obj shape strictUnknown` is a `ZodObject`
(with `strictUnknown = true` after `.strict()`), `other` is any
non-object schema as an opaque parse function. -/
inductive Schema where
  | obj : List (String × FieldSchema) → Bool → Schema
  | other : (EnvMap → Except (List ZodIssue) ParsedValue) → Schema

/-- JS property read `env[k]`: the value of the first entry with key
`k`. -/
def lookupKey (env : EnvMap) (k : String) : Option Value :=
  (env.find? (fun kv => kv.1 == k)).map (fun kv => kv.2)

/-- Parse every field of an object shape against the input, collecting
the issues (path = [key], in shape order) and the parsed fields of the
output object. -/
def parseShape (shape : List (String × FieldSchema)) (env : EnvMap) :
    List ZodIssue × List (String × Value) :=
  match shape with
  | [] => ([], [])
  | (k, fs) :: rest =>
    let tail := parseShape rest env
    match fs.parse (lookupKey env k) with
    | Except.ok v => (tail.1, (k, v) :: tail.2)
    | Except.error m => (⟨[k], m⟩ :: tail.1, tail.2)

/-- The input keys not declared by the shape, in input order (zod's
`extraKeys`). -/
def unrecognizedKeys (shape : List (String × FieldSchema)) (env : EnvMap) :
    List String :=
  (env.map Prod.fst).filter (fun k => !(shape.map Prod.fst).contains k)

/-- Wrap a key name in single quotes, as zod's message formatting does. -/
def quoteKey (k : String) : String := "\x27" ++ k ++ "\x27"

/-- The zod strict-mode message for undeclared input keys. -/
def unrecognizedMessage (keys : List String) : String :=
  "Unrecognized key(s) in object: " ++ String.intercalate ", " (keys.map quoteKey)

/-- The issues an object-schema `safeParse` collects: all field issues
(in shape order) followed, in strict mode, by the single root-path
unrecognized-keys issue when the input has undeclared keys. -/
def objIssues (shape : List (String × FieldSchema)) (strictUnknown : Bool)
    (env : EnvMap) : List ZodIssue :=
  let unrec := if strictUnknown then unrecognizedKeys shape env else []
  (parseShape shape env).1 ++
    (if unrec.isEmpty then [] else [⟨[], unrecognizedMessage unrec⟩])

/-- Embedded `schema.safeParse(input)`. An object schema collects all
field issues and, in strict mode, one root-path unrecognized-keys issue;
it succeeds exactly when no issue was produced. -/
def zodSafeParse : Schema → EnvMap → Except (List ZodIssue) ParsedValue
  | Schema.obj shape strictUnknown, env =>
    if (objIssues shape strictUnknown env).isEmpty then
      Except.ok (ParsedValue.record (parseShape shape env).2)
    else Except.error (objIssues shape strictUnknown env)
  | Schema.other p, env => p env

/-- What a custom `onError` handler raises (it never returns normally). -/
abbrev HandlerOutput := String

/-- The error channel of `createEnv` / `createSplitEnv`: the guard's
security error, the default aggregated validation error, or whatever a
custom handler raised. -/
inductive EnvError where
  | securityViolation : String → EnvError
  | invalidEnv : String → EnvError
  | handlerRaised : HandlerOutput → EnvError
deriving DecidableEq, Repr

/-- The value a validator call returns, with `frozen = true` exactly when
this call guarantees `Object.freeze` was applied to the returned
object. -/
structure EnvResult where
  val : ParsedValue
  frozen : Bool
deriving DecidableEq, Repr

/-- JS property assignment `obj[k] = v`: overwrite the first entry with
key `k` in place, else append. -/
def setEntry : List (String × Value) → String → Value → List (String × Value)
  | [], k, v => [(k, v)]
  | (k', v') :: rest, k, v =>
    if k' == k then (k, v) :: rest else (k', v') :: setEntry rest k v

/-- Strict-mode JS field assignment on a result object: a `TypeError` on
a frozen object, an in-place update otherwise. -/
def setField (r : EnvResult) (k : String) (v : Value) :
    Except String EnvResult :=
  if r.frozen then
    Except.error "TypeError: cannot assign to read only property"
  else
    match r.val with
    | ParsedValue.record fs =>
        Except.ok ⟨ParsedValue.record (setEntry fs k v), false⟩
    | ParsedValue.scalar v' => Except.ok ⟨ParsedValue.scalar v', false⟩

/-- `CreateEnvOptions` of `src/index.ts`, with the source's defaults for
`strict` and `skipValidation`. -/
structure CreateEnvOptions where
  schema : Schema
  runtimeEnv : Option EnvMap := none
  strict : Bool := true
  skipValidation : Bool := false
  onError : Option (List ZodIssue → HandlerOutput) := none
  envSource : Option EnvMap := none
  clientPrefix : Option String := none
  isServer : Option Bool := none

/-- JS truthiness of the optional `clientPrefix` string: `undefined` and
the empty string are falsy. -/
def strOptTruthy : Option String → Bool
  | none => false
  | some s => !(s == "")

/-- JS `key.startsWith(p)`: `p` is a prefix of the key's character
sequence. -/
def jsStartsWith (key p : String) : Bool :=
  p.data.isPrefixOf key.data

/-- The message of the guard's security error in `createEnv`. -/
def securityMessage : String :=
  "Attempted to access server-only environment variables on the client. " ++
  "This is a security risk. Make sure server env is not imported in client code."

/-- `runtimeEnv ?? envSource ?? getDefaultEnvSource()`. -/
def resolveSource (opts : CreateEnvOptions) (ambientEnv : EnvMap) : EnvMap :=
  opts.runtimeEnv.getD (opts.envSource.getD ambientEnv)

/-- The client-side filtering step of `createEnv`: when `clientPrefix` is
truthy and the call is in a client context or explicitly declared
non-server, keep only the entries whose key starts with the
configured string; otherwise pass the source through unchanged. -/
def filteredSource (isClient : Bool) (opts : CreateEnvOptions)
    (source : EnvMap) : EnvMap :=
  if strOptTruthy opts.clientPrefix &&
      (isClient || opts.isServer == some false) then
    source.filter (fun kv => jsStartsWith kv.1 (opts.clientPrefix.getD ""))
  else source

/-- The strictness adapter:
`strict && schema instanceof z.ZodObject ? schema.strict() : schema`. -/
def finalSchema (strict : Bool) (s : Schema) : Schema :=
  match s, strict with
  | Schema.obj shape _, true => Schema.obj shape true
  | s, _ => s

/-- The default formatting of a zod error: one line per issue, each line
the dotted path (or `(root)` for an empty path), a separator, and the
issue's message. -/
def defaultFormatZodError (issues : List ZodIssue) : String :=
  String.intercalate "\n" (issues.map (fun i =>
    (if i.path.isEmpty then "(root)" else String.intercalate "." i.path) ++
      ": " ++ i.message))

/-- `createEnv` of `src/index.ts`: guard, source resolution, client-side
filtering, the skip-validation escape hatch, strictness adaptation,
validation, error reporting, and freezing of the successful output.
`isClient` is the result of the `isClientSide()` probe and `ambientEnv`
the mapping `getDefaultEnvSource()` would return. -/
def createEnv (isClient : Bool) (ambientEnv : EnvMap)
    (opts : CreateEnvOptions) : Except EnvError EnvResult :=
  if opts.isServer == some true && isClient then
    Except.error (EnvError.securityViolation securityMessage)
  else
    let source := resolveSource opts ambientEnv
    let filteredEnv := filteredSource isClient opts source
    if opts.skipValidation then
      Except.ok ⟨ParsedValue.record filteredEnv, false⟩
    else
      match zodSafeParse (finalSchema opts.strict opts.schema) filteredEnv with
      | Except.ok v => Except.ok ⟨v, true⟩
      | Except.error issues =>
        match opts.onError with
        | some handler => Except.error (EnvError.handlerRaised (handler issues))
        | none => Except.error (EnvError.invalidEnv
            ("Invalid environment variables:\n" ++ defaultFormatZodError issues))

/-- JS object spread `{ ...a, ...b }`: the keys of `a` in order (with
`b`'s value where both define the key), then the keys of `b` not in `a`,
in order. -/
def jsMerge (a b : List (String × Value)) : List (String × Value) :=
  (a.map (fun kv =>
    match lookupKey b kv.1 with
    | some v => (kv.1, v)
    | none => kv)) ++
  b.filter (fun kv => (lookupKey a kv.1).isNone)

/-- The fields of a parsed value; the split validator only merges object
schema outputs, which are always records. -/
def recordFields : ParsedValue → List (String × Value)
  | ParsedValue.record fs => fs
  | ParsedValue.scalar _ => []

/-- The options of `createSplitEnv`; the two schemas are constrained to
`ZodObject`, so they are carried as shapes. -/
structure SplitOptions where
  server : List (String × FieldSchema)
  client : List (String × FieldSchema)
  runtimeEnv : EnvMap
  clientPrefix : String
  skipValidation : Bool := false
  onError : Option (List ZodIssue → HandlerOutput) := none

/-- `createSplitEnv` of `src/index.ts`: in a client context, one
`createEnv` call with the client schema (filtered, `isServer: false`);
in a server context, a `createEnv` call per schema against the shared
source, then the spread merge `{ ...serverEnv, ...clientEnv }` — a fresh
object literal, which the source does not freeze. -/
def createSplitEnv (isClient : Bool) (ambientEnv : EnvMap)
    (opts : SplitOptions) : Except EnvError EnvResult :=
  if isClient then
    createEnv isClient ambientEnv
      { schema := Schema.obj opts.client false
        runtimeEnv := some opts.runtimeEnv
        clientPrefix := some opts.clientPrefix
        skipValidation := opts.skipValidation
        onError := opts.onError
        isServer := some false }
  else
    match createEnv isClient ambientEnv
        { schema := Schema.obj opts.server false
          runtimeEnv := some opts.runtimeEnv
          skipValidation := opts.skipValidation
          onError := opts.onError
          isServer := some true } with
    | Except.error e => Except.error e
    | Except.ok serverEnv =>
      match createEnv isClient ambientEnv
          { schema := Schema.obj opts.client false
            runtimeEnv := some opts.runtimeEnv
            clientPrefix := some opts.clientPrefix
            skipValidation := opts.skipValidation
            onError := opts.onError
            isServer := some false } with
      | Except.error e => Except.error e
      | Except.ok clientEnv =>
        Except.ok ⟨ParsedValue.record
          (jsMerge (recordFields serverEnv.val) (recordFields clientEnv.val)),
          false⟩

/-- A concrete `z.string()` field: accepts a string, reports `Required`
on a missing or undefined value, a type mismatch otherwise. -/
def sStr : FieldSchema :=
  ⟨fun v => match v with
    | some (Value.vStr s) => Except.ok (Value.vStr s)
    | some Value.vUndef => Except.error "Required"
    | none => Except.error "Required"
    | some _ => Except.error "Expected string"⟩

/-- A concrete `z.coerce.number()` field: coerces a numeric string,
reports a coercion failure otherwise. -/
def sNum : FieldSchema :=
  ⟨fun v => match v with
    | some (Value.vStr s) =>
      match s.toInt? with
      | some n => Except.ok (Value.vNum n)
      | none => Except.error "Expected number, received nan"
    | some (Value.vNum n) => Except.ok (Value.vNum n)
    | _ => Except.error "Required"⟩

/-! ## Helper lemmas -/

/-- The guard's boolean condition is false exactly when the guard does
not fire. -/
theorem guard_cond_false {isClient : Bool} {opts : CreateEnvOptions}
    (hg : ¬(opts.isServer = some true ∧ isClient = true)) :
    (opts.isServer == some true && isClient) = false := by
  cases h : (opts.isServer == some true && isClient) with
  | false => rfl
  | true =>
    rw [Bool.and_eq_true, beq_iff_eq] at h
    exact absurd ⟨h.1, h.2⟩ hg

/-- Every failing field of an object shape contributes its issue (path =
the field's key) to the issue list `parseShape` collects. -/
theorem parseShape_mem_issue {shape : List (String × FieldSchema)}
    {env : EnvMap} {k : String} {fs : FieldSchema} {m : String}
    (hmem : (k, fs) ∈ shape)
    (hparse : fs.parse (lookupKey env k) = Except.error m) :
    ZodIssue.mk [k] m ∈ (parseShape shape env).1 := by
  induction shape with
  | nil => cases hmem
  | cons hd tl ih =>
    obtain ⟨k', fs'⟩ := hd
    rw [List.mem_cons] at hmem
    rcases hmem with heq | hmem'
    · cases heq
      simp [parseShape, hparse]
    · have htail := ih hmem'
      simp only [parseShape]
      split
      · exact htail
      · exact List.mem_cons_of_mem _ htail

/-- When `safeParse` of an object schema fails, every issue `parseShape`
collected is in the reported issue list. -/
theorem zodSafeParse_error_mem {shape : List (String × FieldSchema)}
    {su : Bool} {env : EnvMap} {issues : List ZodIssue}
    (hp : zodSafeParse (Schema.obj shape su) env = Except.error issues)
    {i : ZodIssue} (hi : i ∈ (parseShape shape env).1) : i ∈ issues := by
  simp only [zodSafeParse] at hp
  split at hp
  · exact Except.noConfusion hp
  · cases hp
    exact List.mem_append_left _ hi

/-! ## Claim C1 -/

/-- The repo's own `createSplitEnv` merge test input: disjoint server and
client schemas and a combined source satisfying both. -/
def splitOptsDisjoint : SplitOptions :=
  { server := [("DATABASE_URL", sStr)]
    client := [("VITE_API_URL", sStr)]
    runtimeEnv := [("DATABASE_URL", Value.vStr "https://db.example.com"),
                   ("VITE_API_URL", Value.vStr "https://api.example.com")]
    clientPrefix := "VITE_" }

/-- Claim C1: in a server context, on disjoint schemas with a combined
source satisfying both, `createSplitEnv` is claimed to return the merge
of the two validated objects. On the code it instead raises: the server
sub-call uses the default `strict` mode against the unfiltered combined
source, so the client key is an unrecognized key for the strict server
schema and validation fails before any merge. -/
theorem createSplitEnv_server_strict_unrecognized :
    createSplitEnv false [] splitOptsDisjoint
      = Except.error (EnvError.invalidEnv
          ("Invalid environment variables:\n(root): Unrecognized key(s) in object: \x27VITE_API_URL\x27")) :=
  rfl

/-! ## Claim C3 -/

/-- A split configuration whose server branch reaches the merge: the
client schema is empty, so both sub-validations succeed. -/
def splitOptsServerOnly : SplitOptions :=
  { server := [("SECRET", sStr)]
    client := []
    runtimeEnv := [("SECRET", Value.vStr "secret")]
    clientPrefix := "VITE_" }

/-- Claim C3: the validated result is claimed to be frozen in all three
cases (`createEnv`, split client branch, split server branch), with any
mutation failing. On the code the server branch returns the fresh spread
object `{ ...serverEnv, ...clientEnv }`, which is never frozen: the
returned result carries no freeze guarantee and a field assignment on it
succeeds silently instead of faulting. -/
theorem createSplitEnv_merge_unfrozen :
    createSplitEnv false [] splitOptsServerOnly
      = Except.ok ⟨ParsedValue.record [("SECRET", Value.vStr "secret")], false⟩
    ∧ setField ⟨ParsedValue.record [("SECRET", Value.vStr "secret")], false⟩
        "SECRET" (Value.vStr "overwritten")
      = Except.ok ⟨ParsedValue.record [("SECRET", Value.vStr "overwritten")], false⟩ :=
  ⟨rfl, rfl⟩

/-! ## Claim C10 -/

/-- Claim C10: an empty `clientPrefix` string is falsy, so the filter
branch is never taken: no filtering happens in any execution context,
and `createEnv` behaves exactly as with no configured string at all. -/
theorem createEnv_emptyClientPfx (isClient : Bool) (amb : EnvMap)
    (opts : CreateEnvOptions) (src : EnvMap) :
    filteredSource isClient { opts with clientPrefix := some "" } src = src
    ∧ createEnv isClient amb { opts with clientPrefix := some "" }
        = createEnv isClient amb { opts with clientPrefix := none } :=
  ⟨rfl, rfl⟩

/-- Every key starts with the empty string. -/
theorem jsStartsWith_empty (k : String) : jsStartsWith k "" = true := by
  have h : ("" : String).data = [] := rfl
  simp [jsStartsWith, h]

/-! ## Claim C4 -/

/-- Claim C4: when a client filter string `p` is configured and the call
is in a client context or explicitly declared non-server, the validated
mapping is exactly the entries of the source whose key starts with `p`
(case-sensitive exact match); when the filter does not apply the source
passes through unchanged. -/
theorem filteredSource_spec (isClient : Bool) (opts : CreateEnvOptions)
    (src : EnvMap) (p : String) :
    (opts.clientPrefix = some p →
      (isClient = true ∨ opts.isServer = some false) →
      filteredSource isClient opts src
        = src.filter (fun kv => jsStartsWith kv.1 p))
    ∧ ((opts.clientPrefix = none ∨
          (isClient = false ∧ opts.isServer ≠ some false)) →
        filteredSource isClient opts src = src) := by
  constructor
  · intro hp hcond
    have hcondb : (isClient || opts.isServer == some false) = true := by
      rcases hcond with h | h
      · simp [h]
      · simp [h]
    by_cases hpe : p = ""
    · subst hpe
      have hid : filteredSource isClient opts src = src := by
        simp [filteredSource, hp, strOptTruthy]
      rw [hid]
      symm
      rw [List.filter_eq_self]
      intro a _
      exact jsStartsWith_empty a.1
    · have hpt : strOptTruthy (some p) = true := by
        simp [strOptTruthy, hpe]
      simp [filteredSource, hp, hpt, hcondb]
  · intro h
    rcases h with h | ⟨hc, hs⟩
    · simp [filteredSource, h, strOptTruthy]
    · have hcf : (isClient || opts.isServer == some false) = false := by
        cases h2 : (opts.isServer == some false) with
        | false => simp [hc]
        | true => exact absurd (eq_of_beq h2) hs
      simp [filteredSource, hcf]

/-- A concrete client configuration with a `VITE_` filter string. -/
def optsC4 : CreateEnvOptions :=
  { schema := Schema.obj [("VITE_A", sStr)] false
    clientPrefix := some "VITE_" }

/-- Witness for C4 at a concrete client-context input: the filter keeps
the matching entry and drops the other one. -/
theorem filteredSource_spec_w :
    filteredSource true optsC4
        [("VITE_A", Value.vStr "a"), ("OTHER_B", Value.vStr "b")]
      = [("VITE_A", Value.vStr "a")] := by
  have h := (filteredSource_spec true optsC4
      [("VITE_A", Value.vStr "a"), ("OTHER_B", Value.vStr "b")] "VITE_").1
    rfl (Or.inl rfl)
  rw [h]
  rfl

/-! ## Claim C7 -/

/-- Claim C7: with `strict` true (the default when the flag is omitted)
and an object schema, validation runs against the strict variant of the
schema, which additionally fails whenever the input has an undeclared
key; with `strict` false, or on a non-object schema, the schema is used
unchanged. -/
theorem finalSchema_strictness (shape : List (String × FieldSchema)) (u : Bool)
    (s : Schema) (env : EnvMap) :
    finalSchema true (Schema.obj shape u) = Schema.obj shape true
    ∧ ({ schema := s } : CreateEnvOptions).strict = true
    ∧ finalSchema false s = s
    ∧ (∀ p, finalSchema true (Schema.other p) = Schema.other p)
    ∧ ((unrecognizedKeys shape env).isEmpty = false →
        ∃ issues, zodSafeParse (Schema.obj shape true) env
            = Except.error issues ∧ issues ≠ []) := by
  refine ⟨rfl, rfl, ?_, fun p => rfl, ?_⟩
  · cases s <;> rfl
  · intro h
    have hobj : objIssues shape true env
        = (parseShape shape env).1 ++
          [⟨[], unrecognizedMessage (unrecognizedKeys shape env)⟩] := by
      simp [objIssues, h]
    have hne : (objIssues shape true env).isEmpty = false := by
      rw [hobj]
      simp
    refine ⟨objIssues shape true env, ?_, ?_⟩
    · simp [zodSafeParse, hne]
    · rw [hobj]
      simp

/-- Witness for C7 at a concrete input: the strict variant of a
one-field object schema rejects an input carrying one undeclared key. -/
theorem finalSchema_strictness_w :
    ∃ issues,
      zodSafeParse (Schema.obj [("A", sStr)] true)
          [("A", Value.vStr "x"), ("B", Value.vStr "y")]
        = Except.error issues ∧ issues ≠ [] :=
  (finalSchema_strictness [("A", sStr)] false (Schema.obj [("A", sStr)] false)
      [("A", Value.vStr "x"), ("B", Value.vStr "y")]).2.2.2.2 (by rfl)

/-! ## Claim C2 -/

/-- When the guard condition is off, `createEnv` never produces the
security error: every other outcome comes from a later stage with a
different constructor. -/
theorem createEnv_noSecurity_of_guard_off {isClient : Bool} {amb : EnvMap}
    {opts : CreateEnvOptions}
    (hb : (opts.isServer == some true && isClient) = false) (m : String) :
    createEnv isClient amb opts ≠ Except.error (EnvError.securityViolation m) := by
  cases hsv : opts.skipValidation with
  | true => simp [createEnv, hb, hsv]
  | false =>
    cases hz : zodSafeParse (finalSchema opts.strict opts.schema)
        (filteredSource isClient opts (resolveSource opts amb)) with
    | ok v => simp [createEnv, hb, hsv, hz]
    | error issues =>
      cases ho : opts.onError with
      | none => simp [createEnv, hb, hsv, hz, ho]
      | some hd => simp [createEnv, hb, hsv, hz, ho]

/-- Claim C2: `createEnv` raises the security error exactly when
`isServer` is exactly `true` and the client probe is true; and when it
does, the outcome is independent of the source mappings, the filter
string, and the skip-validation flag — the guard fires before any of
them is consulted. -/
theorem createEnv_guard_iff (isClient : Bool) (amb : EnvMap)
    (opts : CreateEnvOptions) :
    (createEnv isClient amb opts
        = Except.error (EnvError.securityViolation securityMessage)
      ↔ opts.isServer = some true ∧ isClient = true)
    ∧ (opts.isServer = some true → isClient = true →
        ∀ amb' rEnv eSrc sv cp,
          createEnv isClient amb'
            { opts with runtimeEnv := rEnv, envSource := eSrc,
                        skipValidation := sv, clientPrefix := cp }
            = Except.error (EnvError.securityViolation securityMessage)) := by
  constructor
  · constructor
    · intro hres
      by_contra hc
      exact createEnv_noSecurity_of_guard_off (guard_cond_false hc) _ hres
    · rintro ⟨h1, h2⟩
      simp [createEnv, h1, h2]
  · intro h1 h2 amb' rEnv eSrc sv cp
    simp [createEnv, h1, h2]

/-- A server-only configuration that also requests skip-validation. -/
def optsC2 : CreateEnvOptions :=
  { schema := Schema.obj [("DATABASE_URL", sStr)] false
    runtimeEnv := some [("DATABASE_URL", Value.vStr "https://db.example.com")]
    skipValidation := true
    isServer := some true }

/-- Witness for C2: in a client context a server-only call raises the
security error even though skip-validation was requested. -/
theorem createEnv_guard_iff_w :
    createEnv true [] optsC2
      = Except.error (EnvError.securityViolation securityMessage) :=
  ((createEnv_guard_iff true [] optsC2).1).mpr ⟨rfl, rfl⟩

/-! ## Claim C8 -/

/-- Claim C8: with `skipValidation` true and no guard violation,
`createEnv` returns the (optionally filtered) source mapping as-is: no
schema is consulted, no coercion or defaulting happens, and no freeze
guarantee is added. -/
theorem createEnv_skipValidation_passthrough (isClient : Bool) (amb : EnvMap)
    (opts : CreateEnvOptions)
    (hs : opts.skipValidation = true)
    (hg : ¬(opts.isServer = some true ∧ isClient = true)) :
    createEnv isClient amb opts
      = Except.ok ⟨ParsedValue.record
          (filteredSource isClient opts (resolveSource opts amb)), false⟩ := by
  simp [createEnv, guard_cond_false hg, hs]

/-- A skip-validation call whose value would fail the numeric schema. -/
def optsC8 : CreateEnvOptions :=
  { schema := Schema.obj [("PORT", sNum)] false
    runtimeEnv := some [("PORT", Value.vStr "not-a-number")]
    skipValidation := true }

/-- Witness for C8: the non-numeric string is returned unchanged, not
coerced and not rejected. -/
theorem createEnv_skipValidation_passthrough_w :
    createEnv false [] optsC8
      = Except.ok ⟨ParsedValue.record [("PORT", Value.vStr "not-a-number")],
          false⟩ := by
  have h := createEnv_skipValidation_passthrough false [] optsC8 rfl (by simp)
  rw [h]
  rfl

/-! ## Claim C6 -/

/-- Claim C6: on validation failure with no custom handler, `createEnv`
raises one error whose message is the fixed header followed by one line
per issue — the issue's dotted path (`(root)` when the path is empty), a
separator, and the issue's message — and the issue list aggregates every
failing field of an object schema, not just the first. -/
theorem createEnv_default_error_format (isClient : Bool) (amb : EnvMap)
    (opts : CreateEnvOptions) (issues : List ZodIssue)
    (hg : ¬(opts.isServer = some true ∧ isClient = true))
    (hs : opts.skipValidation = false)
    (hh : opts.onError = none)
    (hp : zodSafeParse (finalSchema opts.strict opts.schema)
          (filteredSource isClient opts (resolveSource opts amb))
        = Except.error issues) :
    createEnv isClient amb opts
      = Except.error (EnvError.invalidEnv
          ("Invalid environment variables:\n" ++
            String.intercalate "\n" (issues.map (fun i =>
              (if i.path.isEmpty then "(root)"
               else String.intercalate "." i.path) ++ ": " ++ i.message))))
    ∧ (∀ shape u k fs m, opts.schema = Schema.obj shape u →
        (k, fs) ∈ shape →
        fs.parse (lookupKey
            (filteredSource isClient opts (resolveSource opts amb)) k)
          = Except.error m →
        ZodIssue.mk [k] m ∈ issues) := by
  constructor
  · simp [createEnv, guard_cond_false hg, hs, hh, hp, defaultFormatZodError]
  · intro shape u k fs m hsc hmem hparse
    rw [hsc] at hp
    have hpk := parseShape_mem_issue hmem hparse
    cases hstr : opts.strict with
    | true =>
      rw [hstr] at hp
      simp only [finalSchema] at hp
      exact zodSafeParse_error_mem hp hpk
    | false =>
      rw [hstr] at hp
      simp only [finalSchema] at hp
      exact zodSafeParse_error_mem hp hpk

/-- A schema with two required fields validated against an empty source:
both fields fail. -/
def optsC6 : CreateEnvOptions :=
  { schema := Schema.obj [("A", sStr), ("B", sStr)] false
    runtimeEnv := some [] }

/-- Witness for C6: both failing fields appear in the single aggregated
message, one line each. -/
theorem createEnv_default_error_format_w :
    createEnv false [] optsC6
      = Except.error (EnvError.invalidEnv
          "Invalid environment variables:\nA: Required\nB: Required") := by
  have h := (createEnv_default_error_format false [] optsC6
      [⟨["A"], "Required"⟩, ⟨["B"], "Required"⟩]
      (by simp) rfl rfl (by rfl)).1
  rw [h]
  rfl

/-! ## Claim C9 -/

/-- Claim C9: on validation failure with a custom handler supplied, what
`createEnv` raises is exactly the handler applied to the full structured
issue list, and the default `Invalid environment variables` error is not
raised. -/
theorem createEnv_custom_handler (isClient : Bool) (amb : EnvMap)
    (opts : CreateEnvOptions) (handler : List ZodIssue → HandlerOutput)
    (issues : List ZodIssue)
    (hg : ¬(opts.isServer = some true ∧ isClient = true))
    (hs : opts.skipValidation = false)
    (hh : opts.onError = some handler)
    (hp : zodSafeParse (finalSchema opts.strict opts.schema)
          (filteredSource isClient opts (resolveSource opts amb))
        = Except.error issues) :
    createEnv isClient amb opts
      = Except.error (EnvError.handlerRaised (handler issues))
    ∧ ∀ m, createEnv isClient amb opts
        ≠ Except.error (EnvError.invalidEnv m) := by
  have h1 : createEnv isClient amb opts
      = Except.error (EnvError.handlerRaised (handler issues)) := by
    simp [createEnv, guard_cond_false hg, hs, hh, hp]
  refine ⟨h1, fun m => ?_⟩
  rw [h1]
  simp

/-- A custom handler recording how many issues it was given. -/
def handlerC9 : List ZodIssue → HandlerOutput :=
  fun issues => "handled " ++ toString issues.length ++ " issue(s)"

/-- A failing configuration with the custom handler installed. -/
def optsC9 : CreateEnvOptions :=
  { schema := Schema.obj [("A", sStr)] false
    runtimeEnv := some []
    onError := some handlerC9 }

/-- Witness for C9: the caller observes the handler's output built from
the one structured issue, not the default error. -/
theorem createEnv_custom_handler_w :
    createEnv false [] optsC9
      = Except.error (EnvError.handlerRaised "handled 1 issue(s)") := by
  have h := (createEnv_custom_handler false [] optsC9 handlerC9
      [⟨["A"], "Required"⟩] (by simp) rfl rfl (by rfl)).1
  rw [h]
  rfl

/-! ## Claim C5 -/

/-- Claim C5: in a client context with a configured filter string, adding
to the source an extra entry whose key does not start with that string
leaves the whole `createEnv` outcome unchanged — the entry is removed by
the filter before validation, so it can never trigger a strict-mode
unrecognized-key failure. -/
theorem createEnv_extra_key_filtered (isClient : Bool) (amb : EnvMap)
    (opts : CreateEnvOptions) (src : EnvMap) (p k : String) (v : Value)
    (hc : isClient = true)
    (hp : opts.clientPrefix = some p)
    (hk : jsStartsWith k p = false) :
    createEnv isClient amb { opts with runtimeEnv := some (src ++ [(k, v)]) }
      = createEnv isClient amb { opts with runtimeEnv := some src } := by
  subst hc
  have hpne : (p == "") = false := by
    cases h : (p == "") with
    | false => rfl
    | true =>
      have hpe : p = "" := eq_of_beq h
      subst hpe
      rw [jsStartsWith_empty k] at hk
      exact Bool.noConfusion hk
  have hflt : (src ++ [(k, v)]).filter (fun kv => jsStartsWith kv.1 p)
      = src.filter (fun kv => jsStartsWith kv.1 p) := by
    rw [List.filter_append]
    simp [hk]
  simp [createEnv, resolveSource, filteredSource, strOptTruthy, hp, hpne, hflt]

/-- A client configuration with a `VITE_` filter string over a matching
source. -/
def optsC5 : CreateEnvOptions :=
  { schema := Schema.obj [("VITE_A", sStr)] false
    clientPrefix := some "VITE_" }

/-- Witness for C5: appending an unrelated `OTHER` entry to the source
changes nothing about the validated client result. -/
theorem createEnv_extra_key_filtered_w :
    createEnv true [] { optsC5 with
        runtimeEnv := some [("VITE_A", Value.vStr "a"), ("OTHER", Value.vStr "b")] }
      = createEnv true [] { optsC5 with
        runtimeEnv := some [("VITE_A", Value.vStr "a")] } :=
  createEnv_extra_key_filtered true [] optsC5
    [("VITE_A", Value.vStr "a")] "VITE_" "OTHER" (Value.vStr "b")
    rfl rfl (by rfl)
